import Mathlib

/-!
Verification of the dump1090-to-Meshtastic connector (`src/planetastic.py`).

The development shallowly embeds the core of the pipeline: the SBS-1 line parser
(`parse_adsb_message`, lines 188-218), the per-aircraft merge / dispatch step
(`process_adsb_message`, lines 114-168), and the reconnecting stream reader
(`connect_to_dump1090`, lines 73-111).

Modelling conventions:
- Python values flowing through the pipeline (raw strings, ints, floats,
  booleans) are the inductive `PyVal`.  Python floats produced by `float(...)`
  on decimal literals are represented exactly by the decimal type `Dec`
  (an integer mantissa with a power-of-ten scale); no claim in scope depends
  on binary rounding, float-to-float equality, or inf/nan literals.
- Python dictionaries keyed by strings are association lists (`dictGet`,
  `dictSet`); insertion order is preserved as CPython does.
- Python exceptions escaping a function are `Except.error`; a Python function
  returning `None` where a record was possible is `Except.ok none`.
- `str.strip` and `str.split(',')` are embedded as structural recursion over
  the character list (`pyStripChars`, `splitChars`), with ASCII whitespace;
  `int(...)` / `float(...)` on strings are `pyParseInt` / `pyParseFloat`,
  modelling decimal numerals with optional sign, fraction and exponent
  (underscore grouping and non-ASCII digits are out of scope).
-/

deriving instance DecidableEq for Except

namespace Planetastic

/-- Exact decimal number: `num / 10 ^ scale`.  Models the values that the Python builtin
`float(...)` produces from the decimal literals in an SBS-1 stream, and the
timestamps handled by the rate limiter. -/
structure Dec where
  num : Int
  scale : Nat
deriving DecidableEq, Repr

/-- Negation of a decimal. -/
def Dec.neg (d : Dec) : Dec := ⟨-d.num, d.scale⟩

/-- Multiply a decimal by `10 ^ k` for an integer `k` (exponent part of a
float literal). -/
def Dec.mulPow10 (d : Dec) (k : Int) : Dec :=
  if 0 ≤ k then ⟨d.num * (10 : Int) ^ k.toNat, d.scale⟩
  else ⟨d.num, d.scale + k.natAbs⟩

/-- Subtraction of decimals (used for `current_time - last_sent_time[...]`). -/
def Dec.sub (a b : Dec) : Dec :=
  ⟨a.num * (10 : Int) ^ b.scale - b.num * (10 : Int) ^ a.scale, a.scale + b.scale⟩

/-- Comparison of a decimal with an integer: `d > n`. -/
def Dec.gtInt (d : Dec) (n : Int) : Bool :=
  n * (10 : Int) ^ d.scale < d.num

/-- A decimal shifted by an integer number of units (used to state the
rate-limit boundary facts `now = t + 299` and so on). -/
def Dec.addInt (a : Dec) (n : Int) : Dec :=
  ⟨a.num + n * (10 : Int) ^ a.scale, a.scale⟩

/-- The Python values stored in a parsed message / aircraft dictionary. -/
inductive PyVal where
  | str (s : String)
  | int (n : Int)
  | float (d : Dec)
  | bool (b : Bool)
deriving DecidableEq, Repr

/-- Python truthiness of an optional dictionary value: `None`, `""`, `0`,
`0.0` and `False` are falsy, everything else in scope is truthy. -/
def truthy : Option PyVal → Bool
  | none => false
  | some (PyVal.str s) => !s.isEmpty
  | some (PyVal.int n) => n != 0
  | some (PyVal.float d) => d.num != 0
  | some (PyVal.bool b) => b

/-- ASCII whitespace stripped by the Python `str.strip()` method. -/
def pyIsSpace (c : Char) : Bool :=
  c = ' ' || c = '\t' || c = '\n' || c = '\r' || c = '\x0b' || c = '\x0c'

/-- `str.strip()` over the character list. -/
def pyStripChars (cs : List Char) : List Char :=
  ((cs.dropWhile pyIsSpace).reverse.dropWhile pyIsSpace).reverse

/-- `str.split(sep)` for a one-character separator, over the character list;
`acc` is the current field accumulated in reverse. -/
def splitChars (sep : Char) : List Char → List Char → List (List Char)
  | [], acc => [acc.reverse]
  | c :: cs, acc =>
    if c = sep then acc.reverse :: splitChars sep cs []
    else splitChars sep cs (c :: acc)

/-- Split at the first character satisfying `p` (used for the `e`/`E`
exponent separator of a float literal). -/
def splitCharsP (p : Char → Bool) : List Char → List Char → List (List Char)
  | [], acc => [acc.reverse]
  | c :: cs, acc =>
    if p c then acc.reverse :: splitCharsP p cs []
    else splitCharsP p cs (c :: acc)

/-- Value of a digit string. -/
def digitsVal (cs : List Char) : Nat :=
  cs.foldl (fun acc c => acc * 10 + (c.toNat - 48)) 0

/-- All characters are decimal digits. -/
def allDigits (cs : List Char) : Bool := cs.all (fun c => c.isDigit)

/-- An optionally signed nonempty digit string, as accepted by `int(...)`
after stripping (and by the exponent part of `float(...)`). -/
def signedDigitsVal : List Char → Option Int
  | '-' :: ds =>
    if !ds.isEmpty && allDigits ds then some (-(digitsVal ds : Int)) else none
  | '+' :: ds =>
    if !ds.isEmpty && allDigits ds then some ((digitsVal ds : Int)) else none
  | ds =>
    if !ds.isEmpty && allDigits ds then some ((digitsVal ds : Int)) else none

/-- The Python builtin `int(s)` applied on a string: surrounding whitespace allowed, then an
optionally signed decimal numeral; anything else raises `ValueError`
(modelled as `none`). -/
def pyParseInt (s : String) : Option Int :=
  signedDigitsVal (pyStripChars s.toList)

/-- The mantissa of a float literal: `digits`, `digits.`, `.digits` or
`digits.digits`. -/
def pyMantissa (cs : List Char) : Option Dec :=
  match splitChars '.' cs [] with
  | [ip] =>
    if !ip.isEmpty && allDigits ip then some ⟨(digitsVal ip : Int), 0⟩ else none
  | [ip, fp] =>
    if (!ip.isEmpty || !fp.isEmpty) && allDigits ip && allDigits fp then
      some ⟨((digitsVal ip * 10 ^ fp.length + digitsVal fp : Nat) : Int), fp.length⟩
    else none
  | _ => none

/-- An unsigned float literal with optional exponent. -/
def pyFloatMag (cs : List Char) : Option Dec :=
  match splitCharsP (fun c => c = 'e' || c = 'E') cs [] with
  | [m] => pyMantissa m
  | [m, e] =>
    match pyMantissa m, signedDigitsVal e with
    | some d, some k => some (d.mulPow10 k)
    | _, _ => none
  | _ => none

/-- The Python builtin `float(s)` applied on a string: surrounding whitespace, optional sign,
then a decimal literal with optional exponent; anything else raises
`ValueError` (modelled as `none`). -/
def pyParseFloat (s : String) : Option Dec :=
  match pyStripChars s.toList with
  | '-' :: rest => (pyFloatMag rest).map Dec.neg
  | '+' :: rest => pyFloatMag rest
  | rest => pyFloatMag rest

/-- The 22 SBS-1 field names, in wire order (`SBS1_FIELDS`, lines 22-28). -/
inductive Field where
  | message_type | transmission_type | session_id | aircraft_id
  | hex_ident | flight_id | generated_date | generated_time
  | logged_date | logged_time | callsign | altitude
  | ground_speed | track | lat | lon | vertical_rate
  | squawk | alert | emergency | spi | is_on_ground
deriving DecidableEq, Repr

/-- The per-aircraft dictionary: each SBS-1 field name maps to an optional
value (`None` in Python is `none`; a key missing from the aircraft dict is
also `none`, which is indistinguishable for every use the program makes). -/
structure Record where
  message_type : Option PyVal
  transmission_type : Option PyVal
  session_id : Option PyVal
  aircraft_id : Option PyVal
  hex_ident : Option PyVal
  flight_id : Option PyVal
  generated_date : Option PyVal
  generated_time : Option PyVal
  logged_date : Option PyVal
  logged_time : Option PyVal
  callsign : Option PyVal
  altitude : Option PyVal
  ground_speed : Option PyVal
  track : Option PyVal
  lat : Option PyVal
  lon : Option PyVal
  vertical_rate : Option PyVal
  squawk : Option PyVal
  alert : Option PyVal
  emergency : Option PyVal
  spi : Option PyVal
  is_on_ground : Option PyVal
deriving DecidableEq, Repr

/-- Look a field up by name. -/
def getField (r : Record) : Field → Option PyVal
  | Field.message_type => r.message_type
  | Field.transmission_type => r.transmission_type
  | Field.session_id => r.session_id
  | Field.aircraft_id => r.aircraft_id
  | Field.hex_ident => r.hex_ident
  | Field.flight_id => r.flight_id
  | Field.generated_date => r.generated_date
  | Field.generated_time => r.generated_time
  | Field.logged_date => r.logged_date
  | Field.logged_time => r.logged_time
  | Field.callsign => r.callsign
  | Field.altitude => r.altitude
  | Field.ground_speed => r.ground_speed
  | Field.track => r.track
  | Field.lat => r.lat
  | Field.lon => r.lon
  | Field.vertical_rate => r.vertical_rate
  | Field.squawk => r.squawk
  | Field.alert => r.alert
  | Field.emergency => r.emergency
  | Field.spi => r.spi
  | Field.is_on_ground => r.is_on_ground

/-- The freshly created aircraft entry `{}` (line 128). -/
def emptyRecord : Record :=
  ⟨none, none, none, none, none, none, none, none, none, none, none,
   none, none, none, none, none, none, none, none, none, none, none⟩

/-- The comma-split of the stripped message (line 192:
`parts = message_str.strip().split(COMMA)` with a comma separator). -/
def sbsFields (message_str : String) : List String :=
  (splitChars ',' (pyStripChars message_str.toList) []).map (fun cs => String.mk cs)

/-- Lines 194-195: positional binding with empty strings replaced by `None`. -/
def initField (s : String) : Option PyVal :=
  if s.isEmpty then none else some (PyVal.str s)

/-- Lines 198-203: the `int(...)` cast of a field, applied only to truthy
(here: non-empty) values, with `ValueError` caught and the original textual
value kept. -/
def castIntField (s : String) : Option PyVal :=
  if s.isEmpty then none
  else
    match pyParseInt s with
    | some n => some (PyVal.int n)
    | none => some (PyVal.str s)

/-- Lines 205-210: the `float(...)` cast, same lenient policy. -/
def castFloatField (s : String) : Option PyVal :=
  if s.isEmpty then none
  else
    match pyParseFloat s with
    | some d => some (PyVal.float d)
    | none => some (PyVal.str s)

/-- Lines 213-215: `bool(int(...))` on a truthy value with NO exception
handler — a non-numeral boolean field raises `ValueError` out of
`parse_adsb_message`. -/
def castBoolField (s : String) : Except String (Option PyVal) :=
  if s.isEmpty then Except.ok none
  else
    match pyParseInt s with
    | some n => Except.ok (some (PyVal.bool (n != 0)))
    | none => Except.error "ValueError: invalid literal for int() with base 10"

/-- A boolean field that the cast of lines 213-215 survives: empty, or an
integer numeral. -/
def boolOk (s : String) : Bool := s.isEmpty || (pyParseInt s).isSome

/-- `parse_adsb_message` (lines 188-218).  `Except.ok none` is the Python
`return None`; `Except.error` is an exception escaping the function. -/
def parse_adsb_message (message_str : String) : Except String (Option Record) :=
  let parts := sbsFields message_str
  if parts.length = 22 ∧ parts.headD "" = "MSG" then do
    let alert ← castBoolField (parts.getD 18 "")
    let emergency ← castBoolField (parts.getD 19 "")
    let spi ← castBoolField (parts.getD 20 "")
    let ground ← castBoolField (parts.getD 21 "")
    Except.ok (some
      { message_type := initField (parts.getD 0 "")
        transmission_type := castIntField (parts.getD 1 "")
        session_id := initField (parts.getD 2 "")
        aircraft_id := initField (parts.getD 3 "")
        hex_ident := initField (parts.getD 4 "")
        flight_id := initField (parts.getD 5 "")
        generated_date := initField (parts.getD 6 "")
        generated_time := initField (parts.getD 7 "")
        logged_date := initField (parts.getD 8 "")
        logged_time := initField (parts.getD 9 "")
        callsign := initField (parts.getD 10 "")
        altitude := castIntField (parts.getD 11 "")
        ground_speed := castIntField (parts.getD 12 "")
        track := castIntField (parts.getD 13 "")
        lat := castFloatField (parts.getD 14 "")
        lon := castFloatField (parts.getD 15 "")
        vertical_rate := castIntField (parts.getD 16 "")
        squawk := castIntField (parts.getD 17 "")
        alert := alert
        emergency := emergency
        spi := spi
        is_on_ground := ground })
  else Except.ok none

/-- A value counts as present for the merge of lines 131-133:
`value is not None and value != ''`.  Of the values in scope only the Python
empty string compares equal to the empty-string literal; `0`, `0.0` and
`False` do not. -/
def presentVal (v : Option PyVal) : Prop :=
  v ≠ none ∧ v ≠ some (PyVal.str "")

instance (v : Option PyVal) : Decidable (presentVal v) := by
  unfold presentVal; infer_instance

/-- One field of the merge loop (lines 131-133): a present incoming value
overwrites, everything else keeps the stored value. -/
def mergeField (stored incoming : Option PyVal) : Option PyVal :=
  match incoming with
  | some v => if v = PyVal.str "" then stored else some v
  | none => stored

/-- The merge loop of lines 131-133 over all 22 keys of the parsed dict. -/
def mergeRecord (stored incoming : Record) : Record :=
  { message_type := mergeField stored.message_type incoming.message_type
    transmission_type := mergeField stored.transmission_type incoming.transmission_type
    session_id := mergeField stored.session_id incoming.session_id
    aircraft_id := mergeField stored.aircraft_id incoming.aircraft_id
    hex_ident := mergeField stored.hex_ident incoming.hex_ident
    flight_id := mergeField stored.flight_id incoming.flight_id
    generated_date := mergeField stored.generated_date incoming.generated_date
    generated_time := mergeField stored.generated_time incoming.generated_time
    logged_date := mergeField stored.logged_date incoming.logged_date
    logged_time := mergeField stored.logged_time incoming.logged_time
    callsign := mergeField stored.callsign incoming.callsign
    altitude := mergeField stored.altitude incoming.altitude
    ground_speed := mergeField stored.ground_speed incoming.ground_speed
    track := mergeField stored.track incoming.track
    lat := mergeField stored.lat incoming.lat
    lon := mergeField stored.lon incoming.lon
    vertical_rate := mergeField stored.vertical_rate incoming.vertical_rate
    squawk := mergeField stored.squawk incoming.squawk
    alert := mergeField stored.alert incoming.alert
    emergency := mergeField stored.emergency incoming.emergency
    spi := mergeField stored.spi incoming.spi
    is_on_ground := mergeField stored.is_on_ground incoming.is_on_ground }

/-- Python dict lookup `db.get(k)` over an insertion-ordered association
list. -/
def dictGet {α : Type} (db : List (String × α)) (k : String) : Option α :=
  match db with
  | [] => none
  | (k', v) :: rest => if k' = k then some v else dictGet rest k

/-- Python dict assignment `db[k] = v`: update in place, or append. -/
def dictSet {α : Type} (db : List (String × α)) (k : String) (v : α) :
    List (String × α) :=
  match db with
  | [] => [(k, v)]
  | (k', v') :: rest =>
    if k' = k then (k, v) :: rest else (k', v') :: dictSet rest k v

/-- Lines 128-135: fetch (or create) the entry for `hex`, merge the parsed
record into it, and store it back. -/
def mergeInto (db : List (String × Record)) (hex : String) (parsed : Record) :
    List (String × Record) :=
  dictSet db hex (mergeRecord ((dictGet db hex).getD emptyRecord) parsed)

/-- The dispatch gate of line 138: `if aircraft.get(lat) and
aircraft.get(callsign)` — Python truthiness of both fields. -/
def reportable (r : Record) : Bool :=
  truthy r.lat && truthy r.callsign

/-- The rate limiter of lines 142-143: dispatch is allowed when the aircraft
was never sent, or when strictly more than `update_interval` seconds have
elapsed. -/
def rateAllows (last_sent_time : List (String × Dec)) (hex : String)
    (now : Dec) (update_interval : Int) : Bool :=
  match dictGet last_sent_time hex with
  | none => true
  | some t => (now.sub t).gtInt update_interval

/-- The two mutable tables of the pipeline (`aircraft_db`,
`last_sent_time`). -/
structure PipeState where
  aircraft_db : List (String × Record)
  last_sent_time : List (String × Dec)
deriving DecidableEq, Repr

/-- The usable dictionary key carried by a `hex_ident` value: the check of
line 120 (`not parsed_data.get(hex_ident)`) skips a falsy value.
`parse_adsb_message` never casts `hex_ident`, so it is either absent or a
non-empty string. -/
def hexKey (v : Option PyVal) : Option String :=
  match v with
  | some (PyVal.str h) => if h.isEmpty then none else some h
  | _ => none

/-- The dictionary key `process_adsb_message` uses (lines 120-125): the
parse must succeed and `parsed_data.get(hex_ident)` must be truthy. -/
def parsedHex (message : String) : Option String :=
  match parse_adsb_message message with
  | Except.ok (some r) => hexKey r.hex_ident
  | _ => none

/-- `process_adsb_message` (lines 114-168): parse, merge, and dispatch when
the gate and the rate limiter both allow it.  The returned `Bool` records
whether a dispatch (a send to the configured sinks, or the simulated console
output) happened; `Except.error` is an exception escaping the call. -/
def process_adsb_message (message : String) (update_interval : Int)
    (now : Dec) (st : PipeState) : Except String (PipeState × Bool) :=
  match parse_adsb_message message with
  | Except.error e => Except.error e
  | Except.ok none => Except.ok (st, false)
  | Except.ok (some parsed) =>
    match parsed.hex_ident with
    | some (PyVal.str hex) =>
      if hex.isEmpty then Except.ok (st, false)
      else
        let aircraft := mergeRecord ((dictGet st.aircraft_db hex).getD emptyRecord) parsed
        let db := dictSet st.aircraft_db hex aircraft
        if reportable aircraft then
          if rateAllows st.last_sent_time hex now update_interval then
            Except.ok
              ({ aircraft_db := db,
                 last_sent_time := dictSet st.last_sent_time hex now }, true)
          else Except.ok ({ aircraft_db := db, last_sent_time := st.last_sent_time }, false)
        else Except.ok ({ aircraft_db := db, last_sent_time := st.last_sent_time }, false)
    | _ => Except.ok (st, false)

/-- Line 18. -/
def CONNECT_ATTEMPT_DELAY : Nat := 5

/-- Line 19. -/
def CONNECT_ATTEMPT_LIMIT : Nat := 10

/-- How a connected session ends: `recv` returning zero bytes (the peer
closed cleanly, line 89-90), or a `socket.error` raised during the reads. -/
inductive SessionEnd where
  | cleanClose
  | sockError
deriving DecidableEq, Repr

/-- One iteration of the outer loop, as seen from the environment: either
the `connect` call raises `socket.error`, or it succeeds and a session
delivers some decoded chunks before ending. -/
inductive ConnEvent where
  | connectFail
  | session (chunks : List String) (ending : SessionEnd)
deriving DecidableEq, Repr

/-- The inner `while NEWLINE in buffer` loop (lines 96-98): emit every complete
line, keep the trailing incomplete piece as the new buffer. -/
def extractLines (buffer : String) : List String × String :=
  let parts := (splitChars '\n' buffer.toList []).map (fun cs => String.mk cs)
  (parts.dropLast, (parts.getLast?).getD "")

/-- `buffer += data` followed by the line-extraction loop. -/
def feedChunk (acc : List String × String) (chunk : String) :
    List String × String :=
  let er := extractLines (acc.2 ++ chunk)
  (acc.1 ++ er.1, er.2)

/-- All lines yielded during one connected session (buffer starts empty at
line 86; an incomplete trailing line is discarded when the session ends). -/
def sessionLines (chunks : List String) : List String :=
  (chunks.foldl feedChunk ([], "")).1

/-- Observable outcome of a run of the reader: the yielded lines, the number
of `time.sleep(CONNECT_ATTEMPT_DELAY)` calls, the final attempt counter,
whether the loop ended by exhausting the attempt budget (line 110), and the
environment events it never consumed. -/
structure LoopResult where
  lines : List String
  sleeps : Nat
  conn_attempts : Nat
  exhausted : Bool
  leftover : List ConnEvent
deriving DecidableEq, Repr

/-- `connect_to_dump1090` (lines 73-111), as a function of the events of the
environment.  `conn_attempts` starts at 0 (line 79) and is incremented only in the
`except socket.error` handler (line 102), which also sleeps unless the limit
was just reached (lines 103-105); a clean peer close breaks out of the read
loop with no increment and no sleep.  If the events run out the real loop
would block in `recv`/`connect`; the model stops there with
`exhausted = false`. -/
def connect_to_dump1090 (conn_attempts : Nat) :
    List ConnEvent → LoopResult
  | [] =>
    if conn_attempts < CONNECT_ATTEMPT_LIMIT then
      { lines := [], sleeps := 0, conn_attempts := conn_attempts,
        exhausted := false, leftover := [] }
    else
      { lines := [], sleeps := 0, conn_attempts := conn_attempts,
        exhausted := true, leftover := [] }
  | ConnEvent.connectFail :: rest =>
    if conn_attempts < CONNECT_ATTEMPT_LIMIT then
      { lines := (connect_to_dump1090 (conn_attempts + 1) rest).lines,
        sleeps := (if conn_attempts + 1 < CONNECT_ATTEMPT_LIMIT then 1 else 0) +
          (connect_to_dump1090 (conn_attempts + 1) rest).sleeps,
        conn_attempts := (connect_to_dump1090 (conn_attempts + 1) rest).conn_attempts,
        exhausted := (connect_to_dump1090 (conn_attempts + 1) rest).exhausted,
        leftover := (connect_to_dump1090 (conn_attempts + 1) rest).leftover }
    else
      { lines := [], sleeps := 0, conn_attempts := conn_attempts,
        exhausted := true, leftover := ConnEvent.connectFail :: rest }
  | ConnEvent.session chunks SessionEnd.cleanClose :: rest =>
    if conn_attempts < CONNECT_ATTEMPT_LIMIT then
      { lines := sessionLines chunks ++ (connect_to_dump1090 conn_attempts rest).lines,
        sleeps := (connect_to_dump1090 conn_attempts rest).sleeps,
        conn_attempts := (connect_to_dump1090 conn_attempts rest).conn_attempts,
        exhausted := (connect_to_dump1090 conn_attempts rest).exhausted,
        leftover := (connect_to_dump1090 conn_attempts rest).leftover }
    else
      { lines := [], sleeps := 0, conn_attempts := conn_attempts,
        exhausted := true,
        leftover := ConnEvent.session chunks SessionEnd.cleanClose :: rest }
  | ConnEvent.session chunks SessionEnd.sockError :: rest =>
    if conn_attempts < CONNECT_ATTEMPT_LIMIT then
      { lines := sessionLines chunks ++ (connect_to_dump1090 (conn_attempts + 1) rest).lines,
        sleeps := (if conn_attempts + 1 < CONNECT_ATTEMPT_LIMIT then 1 else 0) +
          (connect_to_dump1090 (conn_attempts + 1) rest).sleeps,
        conn_attempts := (connect_to_dump1090 (conn_attempts + 1) rest).conn_attempts,
        exhausted := (connect_to_dump1090 (conn_attempts + 1) rest).exhausted,
        leftover := (connect_to_dump1090 (conn_attempts + 1) rest).leftover }
    else
      { lines := [], sleeps := 0, conn_attempts := conn_attempts,
        exhausted := true,
        leftover := ConnEvent.session chunks SessionEnd.sockError :: rest }

/-- The events that run the `except socket.error` handler: failed connects
and socket errors during reads. -/
def errCount : List ConnEvent → Nat
  | [] => 0
  | ConnEvent.connectFail :: rest => errCount rest + 1
  | ConnEvent.session _ SessionEnd.sockError :: rest => errCount rest + 1
  | ConnEvent.session _ SessionEnd.cleanClose :: rest => errCount rest

/-! ## Supporting lemmas -/

theorem mergeField_of_present (s : Option PyVal) {i : Option PyVal}
    (h : presentVal i) : mergeField s i = i := by
  match i with
  | none => exact absurd rfl h.1
  | some v =>
    have hv : v ≠ PyVal.str "" := fun hh => h.2 (by rw [hh])
    simp [mergeField, hv]

theorem mergeField_of_absent (s : Option PyVal) {i : Option PyVal}
    (h : ¬ presentVal i) : mergeField s i = s := by
  match i with
  | none => rfl
  | some v =>
    by_cases hv : v = PyVal.str ""
    · simp [mergeField, hv]
    · exact absurd ⟨by simp, fun hh => hv (Option.some.inj hh)⟩ h

theorem mergeField_idem (s i : Option PyVal) :
    mergeField (mergeField s i) i = mergeField s i := by
  match i with
  | none => rfl
  | some v =>
    by_cases hv : v = PyVal.str "" <;> simp [mergeField, hv]

theorem getField_mergeRecord (s i : Record) (f : Field) :
    getField (mergeRecord s i) f = mergeField (getField s f) (getField i f) := by
  cases f <;> rfl

theorem mergeRecord_idem (s r : Record) :
    mergeRecord (mergeRecord s r) r = mergeRecord s r := by
  simp [mergeRecord, mergeField_idem]

theorem dictGet_dictSet {α : Type} (db : List (String × α)) (k : String) (v : α) :
    dictGet (dictSet db k v) k = some v := by
  induction db with
  | nil => simp [dictSet, dictGet]
  | cons p rest ih =>
    obtain ⟨k', v'⟩ := p
    by_cases h : k' = k
    · simp [dictSet, dictGet, h]
    · simp [dictSet, dictGet, h, ih]

theorem dictSet_dictSet {α : Type} (db : List (String × α)) (k : String) (v w : α) :
    dictSet (dictSet db k v) k w = dictSet db k w := by
  induction db with
  | nil => simp [dictSet]
  | cons p rest ih =>
    obtain ⟨k', v'⟩ := p
    by_cases h : k' = k
    · simp [dictSet, h]
    · simp [dictSet, h, ih]

/-! ## Claims -/

/-- Claim C4: for every stored aircraft record and every incoming parsed
record merged under the same `hex_ident`, each field of the incoming record
that is present (not `None` and not the empty string) overwrites the stored
field, and each absent field of the incoming record leaves the stored value
unchanged. -/
theorem merge_last_write_wins (stored incoming : Record) (f : Field) :
    (presentVal (getField incoming f) →
      getField (mergeRecord stored incoming) f = getField incoming f) ∧
    (¬ presentVal (getField incoming f) →
      getField (mergeRecord stored incoming) f = getField stored f) := by
  refine ⟨fun h => ?_, fun h => ?_⟩
  · rw [getField_mergeRecord]; exact mergeField_of_present _ h
  · rw [getField_mergeRecord]; exact mergeField_of_absent _ h

/-- Witness for C4: a present incoming `lat` overwrites the stored one. -/
theorem merge_last_write_wins_witness :
    presentVal (getField { emptyRecord with lat := some (PyVal.int 7) } Field.lat) ∧
    getField (mergeRecord { emptyRecord with lat := some (PyVal.int 3) }
        { emptyRecord with lat := some (PyVal.int 7) }) Field.lat =
      getField { emptyRecord with lat := some (PyVal.int 7) } Field.lat :=
  ⟨by decide,
   (merge_last_write_wins { emptyRecord with lat := some (PyVal.int 3) }
     { emptyRecord with lat := some (PyVal.int 7) } Field.lat).1 (by decide)⟩

/-- Claim C9: the merge of lines 127-135 is idempotent — merging the same
parsed record twice in succession leaves exactly the stored state that
merging it once leaves. -/
theorem merge_idempotent (db : List (String × Record)) (hex : String)
    (parsed : Record) :
    mergeInto (mergeInto db hex parsed) hex parsed = mergeInto db hex parsed := by
  unfold mergeInto
  rw [dictGet_dictSet]
  simp only [Option.getD_some]
  rw [mergeRecord_idem, dictSet_dictSet]

/-- Claim C7: `parse_adsb_message` returns `None` whenever the comma-split
of the stripped line does not have exactly 22 fields with first field
`MSG`, and it produces a record only for such lines. -/
theorem parse_rejects_non_msg_lines (msg : String) :
    (¬ ((sbsFields msg).length = 22 ∧ (sbsFields msg).headD "" = "MSG") →
      parse_adsb_message msg = Except.ok none) ∧
    (∀ r : Record, parse_adsb_message msg = Except.ok (some r) →
      (sbsFields msg).length = 22 ∧ (sbsFields msg).headD "" = "MSG") := by
  constructor
  · intro h
    simp only [parse_adsb_message]
    rw [if_neg h]
  · intro r hr
    by_cases h : ((sbsFields msg).length = 22 ∧ (sbsFields msg).headD "" = "MSG")
    · exact h
    · simp only [parse_adsb_message] at hr
      rw [if_neg h] at hr
      simp at hr

/-- Witness for C7: a surveillance (`SEL`) line is dropped. -/
theorem parse_rejects_non_msg_lines_witness :
    (¬ ((sbsFields "SEL,1").length = 22 ∧ (sbsFields "SEL,1").headD "" = "MSG")) ∧
    parse_adsb_message "SEL,1" = Except.ok none :=
  ⟨by decide, (parse_rejects_non_msg_lines "SEL,1").1 (by decide)⟩

theorem castBoolField_ok {s : String} (h : boolOk s = true) :
    ∃ v, castBoolField s = Except.ok v := by
  unfold boolOk at h
  by_cases he : s.isEmpty
  · exact ⟨none, by simp [castBoolField, he]⟩
  · simp [he] at h
    match hp : pyParseInt s with
    | some n =>
      exact ⟨some (PyVal.bool (n != 0)), by simp [castBoolField, he, hp]⟩
    | none => rw [hp] at h; simp at h

theorem castIntField_fail {s : String} (h1 : s.isEmpty = false)
    (h2 : pyParseInt s = none) : castIntField s = some (PyVal.str s) := by
  unfold castIntField
  simp [h1, h2]

theorem castFloatField_fail {s : String} (h1 : s.isEmpty = false)
    (h2 : pyParseFloat s = none) : castFloatField s = some (PyVal.str s) := by
  unfold castFloatField
  simp [h1, h2]

/-- Counterexample to claim C1 as stated: a structurally valid 22-field
`MSG` line whose `alert` field is the non-numeral `x` does NOT parse into a
record — the uncaught `bool(int(...))` cast of lines 213-215 raises a
`ValueError` that fails the whole parse, unlike the guarded int/float
casts. -/
theorem parse_bool_cast_raises :
    (sbsFields "MSG,3,1,1,AB1,,,,,,,,,,,,,,x,,,").length = 22 ∧
    (sbsFields "MSG,3,1,1,AB1,,,,,,,,,,,,,,x,,,").headD "" = "MSG" ∧
    parse_adsb_message "MSG,3,1,1,AB1,,,,,,,,,,,,,,x,,," =
      Except.error "ValueError: invalid literal for int() with base 10" := by
  refine ⟨by decide, by decide, by decide⟩

/-- Claim C1 (amended): for a 22-field `MSG` line whose four boolean fields
(`alert`, `emergency`, `spi`, `is_on_ground`) are each empty or an integer
numeral, the parse returns a record, and a failed `int(...)` / `float(...)`
cast on any of the typed fields `transmission_type`, `altitude`,
`ground_speed`, `track`, `vertical_rate`, `squawk`, `lat`, `lon` leaves that
field as its original textual value without failing the parse.  (The inclusion, by the claim, of the boolean fields in the lenient policy is refuted by
`parse_bool_cast_raises`: a non-numeral boolean field raises an uncaught
`ValueError` and the whole parse fails.) -/
theorem parse_cast_leniency (msg : String) (parts : List String)
    (hp : sbsFields msg = parts)
    (h22 : parts.length = 22) (hmsg : parts.headD "" = "MSG")
    (hb18 : boolOk (parts.getD 18 "") = true)
    (hb19 : boolOk (parts.getD 19 "") = true)
    (hb20 : boolOk (parts.getD 20 "") = true)
    (hb21 : boolOk (parts.getD 21 "") = true) :
    ∃ r : Record, parse_adsb_message msg = Except.ok (some r) ∧
      ((parts.getD 1 "").isEmpty = false → pyParseInt (parts.getD 1 "") = none →
        r.transmission_type = some (PyVal.str (parts.getD 1 ""))) ∧
      ((parts.getD 11 "").isEmpty = false → pyParseInt (parts.getD 11 "") = none →
        r.altitude = some (PyVal.str (parts.getD 11 ""))) ∧
      ((parts.getD 12 "").isEmpty = false → pyParseInt (parts.getD 12 "") = none →
        r.ground_speed = some (PyVal.str (parts.getD 12 ""))) ∧
      ((parts.getD 13 "").isEmpty = false → pyParseInt (parts.getD 13 "") = none →
        r.track = some (PyVal.str (parts.getD 13 ""))) ∧
      ((parts.getD 16 "").isEmpty = false → pyParseInt (parts.getD 16 "") = none →
        r.vertical_rate = some (PyVal.str (parts.getD 16 ""))) ∧
      ((parts.getD 17 "").isEmpty = false → pyParseInt (parts.getD 17 "") = none →
        r.squawk = some (PyVal.str (parts.getD 17 ""))) ∧
      ((parts.getD 14 "").isEmpty = false → pyParseFloat (parts.getD 14 "") = none →
        r.lat = some (PyVal.str (parts.getD 14 ""))) ∧
      ((parts.getD 15 "").isEmpty = false → pyParseFloat (parts.getD 15 "") = none →
        r.lon = some (PyVal.str (parts.getD 15 ""))) := by
  obtain ⟨v18, e18⟩ := castBoolField_ok hb18
  obtain ⟨v19, e19⟩ := castBoolField_ok hb19
  obtain ⟨v20, e20⟩ := castBoolField_ok hb20
  obtain ⟨v21, e21⟩ := castBoolField_ok hb21
  simp only [parse_adsb_message, hp]
  rw [if_pos ⟨h22, hmsg⟩, e18, e19, e20, e21]
  simp only [bind, Except.bind]
  refine ⟨_, rfl, ?_, ?_, ?_, ?_, ?_, ?_, ?_, ?_⟩ <;>
    intro h1 h2
  · exact castIntField_fail h1 h2
  · exact castIntField_fail h1 h2
  · exact castIntField_fail h1 h2
  · exact castIntField_fail h1 h2
  · exact castIntField_fail h1 h2
  · exact castIntField_fail h1 h2
  · exact castFloatField_fail h1 h2
  · exact castFloatField_fail h1 h2

/-- Witness for the amended C1: on a concrete line with a non-numeral
`altitude`, the parse succeeds and the lenient conjuncts apply. -/
theorem parse_cast_leniency_witness :
    boolOk ((sbsFields "MSG,3,1,1,ABC123,1,,,,,BAW123,ALTBAD,,,51.5,-0.1,,,,,,").getD 18 "") = true ∧
    (∃ r : Record,
      parse_adsb_message "MSG,3,1,1,ABC123,1,,,,,BAW123,ALTBAD,,,51.5,-0.1,,,,,," =
        Except.ok (some r) ∧
      (((sbsFields "MSG,3,1,1,ABC123,1,,,,,BAW123,ALTBAD,,,51.5,-0.1,,,,,,").getD 1 "").isEmpty = false →
        pyParseInt ((sbsFields "MSG,3,1,1,ABC123,1,,,,,BAW123,ALTBAD,,,51.5,-0.1,,,,,,").getD 1 "") = none →
        r.transmission_type = some (PyVal.str ((sbsFields "MSG,3,1,1,ABC123,1,,,,,BAW123,ALTBAD,,,51.5,-0.1,,,,,,").getD 1 ""))) ∧
      (((sbsFields "MSG,3,1,1,ABC123,1,,,,,BAW123,ALTBAD,,,51.5,-0.1,,,,,,").getD 11 "").isEmpty = false →
        pyParseInt ((sbsFields "MSG,3,1,1,ABC123,1,,,,,BAW123,ALTBAD,,,51.5,-0.1,,,,,,").getD 11 "") = none →
        r.altitude = some (PyVal.str ((sbsFields "MSG,3,1,1,ABC123,1,,,,,BAW123,ALTBAD,,,51.5,-0.1,,,,,,").getD 11 ""))) ∧
      (((sbsFields "MSG,3,1,1,ABC123,1,,,,,BAW123,ALTBAD,,,51.5,-0.1,,,,,,").getD 12 "").isEmpty = false →
        pyParseInt ((sbsFields "MSG,3,1,1,ABC123,1,,,,,BAW123,ALTBAD,,,51.5,-0.1,,,,,,").getD 12 "") = none →
        r.ground_speed = some (PyVal.str ((sbsFields "MSG,3,1,1,ABC123,1,,,,,BAW123,ALTBAD,,,51.5,-0.1,,,,,,").getD 12 ""))) ∧
      (((sbsFields "MSG,3,1,1,ABC123,1,,,,,BAW123,ALTBAD,,,51.5,-0.1,,,,,,").getD 13 "").isEmpty = false →
        pyParseInt ((sbsFields "MSG,3,1,1,ABC123,1,,,,,BAW123,ALTBAD,,,51.5,-0.1,,,,,,").getD 13 "") = none →
        r.track = some (PyVal.str ((sbsFields "MSG,3,1,1,ABC123,1,,,,,BAW123,ALTBAD,,,51.5,-0.1,,,,,,").getD 13 ""))) ∧
      (((sbsFields "MSG,3,1,1,ABC123,1,,,,,BAW123,ALTBAD,,,51.5,-0.1,,,,,,").getD 16 "").isEmpty = false →
        pyParseInt ((sbsFields "MSG,3,1,1,ABC123,1,,,,,BAW123,ALTBAD,,,51.5,-0.1,,,,,,").getD 16 "") = none →
        r.vertical_rate = some (PyVal.str ((sbsFields "MSG,3,1,1,ABC123,1,,,,,BAW123,ALTBAD,,,51.5,-0.1,,,,,,").getD 16 ""))) ∧
      (((sbsFields "MSG,3,1,1,ABC123,1,,,,,BAW123,ALTBAD,,,51.5,-0.1,,,,,,").getD 17 "").isEmpty = false →
        pyParseInt ((sbsFields "MSG,3,1,1,ABC123,1,,,,,BAW123,ALTBAD,,,51.5,-0.1,,,,,,").getD 17 "") = none →
        r.squawk = some (PyVal.str ((sbsFields "MSG,3,1,1,ABC123,1,,,,,BAW123,ALTBAD,,,51.5,-0.1,,,,,,").getD 17 ""))) ∧
      (((sbsFields "MSG,3,1,1,ABC123,1,,,,,BAW123,ALTBAD,,,51.5,-0.1,,,,,,").getD 14 "").isEmpty = false →
        pyParseFloat ((sbsFields "MSG,3,1,1,ABC123,1,,,,,BAW123,ALTBAD,,,51.5,-0.1,,,,,,").getD 14 "") = none →
        r.lat = some (PyVal.str ((sbsFields "MSG,3,1,1,ABC123,1,,,,,BAW123,ALTBAD,,,51.5,-0.1,,,,,,").getD 14 ""))) ∧
      (((sbsFields "MSG,3,1,1,ABC123,1,,,,,BAW123,ALTBAD,,,51.5,-0.1,,,,,,").getD 15 "").isEmpty = false →
        pyParseFloat ((sbsFields "MSG,3,1,1,ABC123,1,,,,,BAW123,ALTBAD,,,51.5,-0.1,,,,,,").getD 15 "") = none →
        r.lon = some (PyVal.str ((sbsFields "MSG,3,1,1,ABC123,1,,,,,BAW123,ALTBAD,,,51.5,-0.1,,,,,,").getD 15 "")))) :=
  ⟨by decide,
   parse_cast_leniency "MSG,3,1,1,ABC123,1,,,,,BAW123,ALTBAD,,,51.5,-0.1,,,,,," _ rfl
     (by decide) (by decide) (by decide) (by decide) (by decide) (by decide)⟩

/-- Counterexample to claim C8 as stated: a 22-field `MSG` line (with a
non-numeral `spi` field) on which `parse_adsb_message` returns no record at
all — it raises — so not every well-formed 22-field `MSG` line yields a
record carrying the 5th field. -/
theorem parse_hex_ident_counterexample :
    (sbsFields "MSG,3,1,1,AC8,,,,,,,,,,,,,,,,zz,").length = 22 ∧
    (sbsFields "MSG,3,1,1,AC8,,,,,,,,,,,,,,,,zz,").headD "" = "MSG" ∧
    parse_adsb_message "MSG,3,1,1,AC8,,,,,,,,,,,,,,,,zz," =
      Except.error "ValueError: invalid literal for int() with base 10" := by
  refine ⟨by decide, by decide, by decide⟩

/-- Claim C8 (amended): for a 22-field `MSG` line whose boolean fields are
empty or integer numerals (so that the parse does return a record), the
`hex_ident` of the record is exactly the 5th comma-separated field of the
stripped line when that field is non-empty, and the absent value (`None`)
when that field is empty. -/
theorem parse_hex_ident_amended (msg : String) (parts : List String)
    (hp : sbsFields msg = parts)
    (h22 : parts.length = 22) (hmsg : parts.headD "" = "MSG")
    (hb18 : boolOk (parts.getD 18 "") = true)
    (hb19 : boolOk (parts.getD 19 "") = true)
    (hb20 : boolOk (parts.getD 20 "") = true)
    (hb21 : boolOk (parts.getD 21 "") = true) :
    ∃ r : Record, parse_adsb_message msg = Except.ok (some r) ∧
      ((parts.getD 4 "").isEmpty = false →
        r.hex_ident = some (PyVal.str (parts.getD 4 ""))) ∧
      ((parts.getD 4 "").isEmpty = true → r.hex_ident = none) := by
  obtain ⟨v18, e18⟩ := castBoolField_ok hb18
  obtain ⟨v19, e19⟩ := castBoolField_ok hb19
  obtain ⟨v20, e20⟩ := castBoolField_ok hb20
  obtain ⟨v21, e21⟩ := castBoolField_ok hb21
  simp only [parse_adsb_message, hp]
  rw [if_pos ⟨h22, hmsg⟩, e18, e19, e20, e21]
  simp only [bind, Except.bind]
  refine ⟨_, rfl, fun h => ?_, fun h => ?_⟩
  · show initField (parts.getD 4 "") = some (PyVal.str (parts.getD 4 ""))
    unfold initField
    rw [if_neg (by rw [h]; exact Bool.false_ne_true)]
  · show initField (parts.getD 4 "") = none
    unfold initField
    rw [if_pos h]

/-- Witness for the amended C8 at a concrete line. -/
theorem parse_hex_ident_amended_witness :
    boolOk ((sbsFields "MSG,3,1,1,HEX8,,,,,,,,,,,,,,0,1,0,1").getD 18 "") = true ∧
    (∃ r : Record,
      parse_adsb_message "MSG,3,1,1,HEX8,,,,,,,,,,,,,,0,1,0,1" = Except.ok (some r) ∧
      (((sbsFields "MSG,3,1,1,HEX8,,,,,,,,,,,,,,0,1,0,1").getD 4 "").isEmpty = false →
        r.hex_ident = some (PyVal.str ((sbsFields "MSG,3,1,1,HEX8,,,,,,,,,,,,,,0,1,0,1").getD 4 ""))) ∧
      (((sbsFields "MSG,3,1,1,HEX8,,,,,,,,,,,,,,0,1,0,1").getD 4 "").isEmpty = true →
        r.hex_ident = none)) :=
  ⟨by decide,
   parse_hex_ident_amended "MSG,3,1,1,HEX8,,,,,,,,,,,,,,0,1,0,1" _ rfl
     (by decide) (by decide) (by decide) (by decide) (by decide) (by decide)⟩

/-- `parse_adsb_message` never casts `hex_ident`: every record it returns
has `hex_ident` absent or a raw string (so the wildcard arm of
`process_adsb_message` for non-string `hex_ident` values is unreachable
from parsed input). -/
theorem parse_hex_ident_shape (msg : String) (r : Record)
    (h : parse_adsb_message msg = Except.ok (some r)) :
    r.hex_ident = none ∨ ∃ s : String, r.hex_ident = some (PyVal.str s) := by
  unfold parse_adsb_message at h
  by_cases hc : ((sbsFields msg).length = 22 ∧ (sbsFields msg).headD "" = "MSG")
  · rw [if_pos hc] at h
    cases h18 : castBoolField ((sbsFields msg).getD 18 "") with
    | error e => rw [h18] at h; simp [bind, Except.bind] at h
    | ok v18 =>
      rw [h18] at h
      simp only [bind, Except.bind] at h
      cases h19 : castBoolField ((sbsFields msg).getD 19 "") with
      | error e => rw [h19] at h; simp at h
      | ok v19 =>
        rw [h19] at h
        cases h20 : castBoolField ((sbsFields msg).getD 20 "") with
        | error e => rw [h20] at h; simp at h
        | ok v20 =>
          rw [h20] at h
          cases h21 : castBoolField ((sbsFields msg).getD 21 "") with
          | error e => rw [h21] at h; simp at h
          | ok v21 =>
            rw [h21] at h
            simp only [Except.ok.injEq, Option.some.injEq] at h
            subst h
            show initField ((sbsFields msg).getD 4 "") = none ∨ _
            unfold initField
            by_cases he : ((sbsFields msg).getD 4 "").isEmpty
            · rw [if_pos he]
              exact Or.inl rfl
            · rw [if_neg he]
              exact Or.inr ⟨_, rfl⟩
  · rw [if_neg hc] at h
    simp at h

theorem hexKey_some {v : Option PyVal} {hex : String}
    (h : hexKey v = some hex) :
    v = some (PyVal.str hex) ∧ hex.isEmpty = false := by
  cases v with
  | none => exact Option.noConfusion h
  | some pv =>
    cases pv with
    | int n => exact Option.noConfusion h
    | float q => exact Option.noConfusion h
    | bool b => exact Option.noConfusion h
    | str hs =>
      have h2 : (if hs.isEmpty then none else some hs) = some hex := h
      by_cases he : hs.isEmpty
      · rw [if_pos he] at h2
        exact Option.noConfusion h2
      · rw [if_neg he] at h2
        have hh := Option.some.inj h2
        subst hh
        exact ⟨rfl, by revert he; cases hs.isEmpty <;> simp⟩

/-- Inversion of one `process_adsb_message` call on a message whose parse
succeeds with a truthy `hex_ident`: the call reduces to the merge followed
by the gate and the rate limiter. -/
theorem process_spec (msg : String) (ui : Int) (now : Dec) (st : PipeState)
    (hex : String) (hhex : parsedHex msg = some hex) :
    ∃ parsed : Record, parse_adsb_message msg = Except.ok (some parsed) ∧
      parsed.hex_ident = some (PyVal.str hex) ∧ hex.isEmpty = false ∧
      process_adsb_message msg ui now st =
        (if reportable (mergeRecord ((dictGet st.aircraft_db hex).getD emptyRecord) parsed) then
          if rateAllows st.last_sent_time hex now ui then
            Except.ok
              ({ aircraft_db := dictSet st.aircraft_db hex
                   (mergeRecord ((dictGet st.aircraft_db hex).getD emptyRecord) parsed),
                 last_sent_time := dictSet st.last_sent_time hex now }, true)
          else
            Except.ok
              ({ aircraft_db := dictSet st.aircraft_db hex
                   (mergeRecord ((dictGet st.aircraft_db hex).getD emptyRecord) parsed),
                 last_sent_time := st.last_sent_time }, false)
        else
          Except.ok
            ({ aircraft_db := dictSet st.aircraft_db hex
                 (mergeRecord ((dictGet st.aircraft_db hex).getD emptyRecord) parsed),
               last_sent_time := st.last_sent_time }, false)) := by
  unfold parsedHex at hhex
  cases hpp : parse_adsb_message msg with
  | error e =>
    rw [hpp] at hhex
    exact Option.noConfusion hhex
  | ok o =>
    rw [hpp] at hhex
    cases o with
    | none => exact Option.noConfusion hhex
    | some parsed =>
      have hhex2 : hexKey parsed.hex_ident = some hex := hhex
      obtain ⟨hh, he⟩ := hexKey_some hhex2
      refine ⟨parsed, rfl, hh, he, ?_⟩
      simp only [process_adsb_message, hpp, hh]
      rw [if_neg (by rw [he]; exact Bool.false_ne_true)]

/-- Counterexample record for claim C2: the state stored for `AC2` after the
line `MSG,3,1,1,AC2,,,,,,BAW1,,,,0,,,,,,,` is merged into an empty store. -/
def recC2 : Record :=
  { emptyRecord with
    message_type := some (PyVal.str "MSG")
    transmission_type := some (PyVal.int 3)
    session_id := some (PyVal.str "1")
    aircraft_id := some (PyVal.str "1")
    hex_ident := some (PyVal.str "AC2")
    callsign := some (PyVal.str "BAW1")
    lat := some (PyVal.float ⟨0, 0⟩) }

/-- Counterexample to claim C2 as stated: an aircraft whose `lat` and
`callsign` have both been set by non-empty values (`lat` by the numeral `0`,
parsed to `0.0`), that has never been dispatched, and yet is NOT dispatched
— line 138 tests Python truthiness, and `0.0` is falsy, so non-absence of
`lat` is not sufficient for eligibility. -/
theorem reportable_zero_lat_counterexample :
    process_adsb_message "MSG,3,1,1,AC2,,,,,,BAW1,,,,0,,,,,,," 300 ⟨0, 0⟩ ⟨[], []⟩ =
      Except.ok (⟨[("AC2", recC2)], []⟩, false) ∧
    presentVal recC2.lat ∧ presentVal recC2.callsign ∧
    dictGet ([] : List (String × Dec)) "AC2" = none := by
  refine ⟨by decide, by decide, by decide, by decide⟩

/-- Claim C2 (amended): after every merge the record is eligible for
dispatch iff `lat` and `callsign` are both Python-truthy — for `callsign`
(always a non-empty string when set) this coincides with being non-absent,
but for `lat` it additionally requires the value not to be `0.0` (and not a
raw string equal to... a falsy value); concretely, when the rate limiter
poses no obstacle (the aircraft was never dispatched), a dispatch happens
iff `lat` and `callsign` of the merged record are both truthy. -/
theorem process_dispatch_gate_truthiness (msg : String) (ui : Int) (now : Dec)
    (st st' : PipeState) (d : Bool) (hex : String)
    (hhex : parsedHex msg = some hex)
    (hnever : dictGet st.last_sent_time hex = none)
    (hproc : process_adsb_message msg ui now st = Except.ok (st', d)) :
    ∃ r : Record, dictGet st'.aircraft_db hex = some r ∧
      d = (truthy r.lat && truthy r.callsign) := by
  obtain ⟨parsed, hpp, hh, he, hspec⟩ := process_spec msg ui now st hex hhex
  rw [hspec] at hproc
  by_cases hr : reportable (mergeRecord ((dictGet st.aircraft_db hex).getD emptyRecord) parsed) = true
  · rw [if_pos hr] at hproc
    have hra : rateAllows st.last_sent_time hex now ui = true := by
      unfold rateAllows; rw [hnever]
    rw [if_pos hra] at hproc
    simp only [Except.ok.injEq, Prod.mk.injEq] at hproc
    obtain ⟨hst, hd⟩ := hproc
    refine ⟨mergeRecord ((dictGet st.aircraft_db hex).getD emptyRecord) parsed, ?_, ?_⟩
    · rw [← hst]
      exact dictGet_dictSet _ _ _
    · rw [← hd]
      unfold reportable at hr
      exact hr.symm
  · rw [if_neg hr] at hproc
    simp only [Except.ok.injEq, Prod.mk.injEq] at hproc
    obtain ⟨hst, hd⟩ := hproc
    have hrf : reportable (mergeRecord ((dictGet st.aircraft_db hex).getD emptyRecord) parsed) = false := by
      revert hr; cases reportable (mergeRecord ((dictGet st.aircraft_db hex).getD emptyRecord) parsed) <;> simp
    refine ⟨mergeRecord ((dictGet st.aircraft_db hex).getD emptyRecord) parsed, ?_, ?_⟩
    · rw [← hst]
      exact dictGet_dictSet _ _ _
    · rw [← hd]
      unfold reportable at hrf
      exact hrf.symm

/-- Witness scenario for the amended C2: a fully reportable line for
aircraft `GATE` merged into an empty store. -/
def recGate : Record :=
  { emptyRecord with
    message_type := some (PyVal.str "MSG")
    transmission_type := some (PyVal.int 3)
    session_id := some (PyVal.str "1")
    aircraft_id := some (PyVal.str "1")
    hex_ident := some (PyVal.str "GATE")
    callsign := some (PyVal.str "CS2")
    lat := some (PyVal.float ⟨5, 0⟩) }

/-- The state after processing the witness line for `GATE`. -/
def stGate : PipeState := ⟨[("GATE", recGate)], [("GATE", ⟨0, 0⟩)]⟩

/-- Witness for the amended C2 at a concrete reportable line. -/
theorem process_dispatch_gate_truthiness_witness :
    parsedHex "MSG,3,1,1,GATE,,,,,,CS2,,,,5,,,,,,," = some "GATE" ∧
    (∃ r : Record, dictGet stGate.aircraft_db "GATE" = some r ∧
      true = (truthy r.lat && truthy r.callsign)) :=
  ⟨by decide,
   process_dispatch_gate_truthiness "MSG,3,1,1,GATE,,,,,,CS2,,,,5,,,,,,," 300
     ⟨0, 0⟩ ⟨[], []⟩ stGate true "GATE" (by decide) (by decide) (by decide)⟩

theorem Dec.sub_addInt_gtInt (t : Dec) (k m : Int) :
    ((t.addInt k).sub t).gtInt m = decide (m < k) := by
  simp only [Dec.addInt, Dec.sub, Dec.gtInt]
  have hpow : ((10 : Int) ^ (t.scale + t.scale)) =
      (10 : Int) ^ t.scale * (10 : Int) ^ t.scale := pow_add 10 t.scale t.scale
  have harith : (t.num + k * (10 : Int) ^ t.scale) * (10 : Int) ^ t.scale -
      t.num * (10 : Int) ^ t.scale = k * ((10 : Int) ^ (t.scale + t.scale)) := by
    rw [hpow]; ring
  have hpos : (0 : Int) < 10 ^ (t.scale + t.scale) := pow_pos (by norm_num) _
  rw [decide_eq_decide, harith]
  exact mul_lt_mul_right hpos

theorem rateAllows_iff (lst : List (String × Dec)) (hex : String) (now : Dec)
    (ui : Int) :
    rateAllows lst hex now ui = true ↔
      (dictGet lst hex = none ∨
        ∃ t, dictGet lst hex = some t ∧ (now.sub t).gtInt ui = true) := by
  unfold rateAllows
  cases h : dictGet lst hex with
  | none => simp
  | some t => simp [h]

/-- Claim C3: for a reportable aircraft (the gate of line 138 passes after
the merge), a dispatch occurs iff the aircraft was never dispatched before
or strictly more than `update_interval` has elapsed since its last dispatch;
on dispatch `last_sent_time[hex_ident]` becomes `now` and otherwise the
timer table is unchanged; in particular with `update_interval = 300` a
second reportable event at `t + 299` or exactly `t + 300` produces no new
dispatch while one at `t + 301` does. -/
theorem process_rate_limit (msg : String) (ui : Int) (now : Dec)
    (st st' : PipeState) (d : Bool) (hex : String)
    (hhex : parsedHex msg = some hex)
    (hproc : process_adsb_message msg ui now st = Except.ok (st', d))
    (hrep : reportable ((dictGet st'.aircraft_db hex).getD emptyRecord) = true) :
    (d = true ↔ (dictGet st.last_sent_time hex = none ∨
      ∃ t, dictGet st.last_sent_time hex = some t ∧ (now.sub t).gtInt ui = true)) ∧
    (d = true → dictGet st'.last_sent_time hex = some now) ∧
    (d = false → st'.last_sent_time = st.last_sent_time) ∧
    (ui = 300 → ∀ t : Dec, dictGet st.last_sent_time hex = some t →
      ((now = t.addInt 299 → d = false) ∧ (now = t.addInt 300 → d = false) ∧
       (now = t.addInt 301 → d = true))) := by
  obtain ⟨parsed, hpp, hh, he, hspec⟩ := process_spec msg ui now st hex hhex
  rw [hspec] at hproc
  set A := mergeRecord ((dictGet st.aircraft_db hex).getD emptyRecord) parsed with hA
  by_cases hr : reportable A = true
  · rw [if_pos hr] at hproc
    by_cases hra : rateAllows st.last_sent_time hex now ui = true
    · rw [if_pos hra] at hproc
      simp only [Except.ok.injEq, Prod.mk.injEq] at hproc
      obtain ⟨hst, hd⟩ := hproc
      subst hd
      refine ⟨⟨fun _ => (rateAllows_iff _ _ _ _).mp hra, fun _ => rfl⟩,
        fun _ => ?_, fun hdf => Bool.noConfusion hdf, fun hui t ht => ?_⟩
      · rw [← hst]
        exact dictGet_dictSet _ _ _
      · subst hui
        rcases (rateAllows_iff st.last_sent_time hex now 300).mp hra with
          hnone | ⟨t', ht', hgt⟩
        · rw [ht] at hnone
          exact Option.noConfusion hnone
        · rw [ht] at ht'
          have htt : t = t' := Option.some.inj ht'
          subst htt
          refine ⟨fun hnow => ?_, fun hnow => ?_, fun _ => rfl⟩
          · subst hnow
            rw [Dec.sub_addInt_gtInt] at hgt
            exact absurd hgt (by decide)
          · subst hnow
            rw [Dec.sub_addInt_gtInt] at hgt
            exact absurd hgt (by decide)
    · rw [if_neg hra] at hproc
      simp only [Except.ok.injEq, Prod.mk.injEq] at hproc
      obtain ⟨hst, hd⟩ := hproc
      subst hd
      refine ⟨⟨fun hdt => Bool.noConfusion hdt,
        fun hc => absurd ((rateAllows_iff _ _ _ _).mpr hc) hra⟩,
        fun hdt => Bool.noConfusion hdt, fun _ => by rw [← hst], fun hui t ht => ?_⟩
      refine ⟨fun _ => rfl, fun _ => rfl, fun hnow => ?_⟩
      subst hui
      subst hnow
      exfalso
      apply hra
      unfold rateAllows
      rw [ht]
      show ((t.addInt 301).sub t).gtInt 300 = true
      rw [Dec.sub_addInt_gtInt]
      decide
  · rw [if_neg hr] at hproc
    simp only [Except.ok.injEq, Prod.mk.injEq] at hproc
    obtain ⟨hst, hd⟩ := hproc
    exfalso
    apply hr
    have hdg : dictGet st'.aircraft_db hex = some A := by
      rw [← hst]
      exact dictGet_dictSet _ _ _
    rw [hdg] at hrep
    exact hrep

/-- The record stored for `AC3` after its witness line is merged into an
empty store. -/
def recC3 : Record :=
  { emptyRecord with
    message_type := some (PyVal.str "MSG")
    transmission_type := some (PyVal.int 3)
    session_id := some (PyVal.str "1")
    aircraft_id := some (PyVal.str "1")
    hex_ident := some (PyVal.str "AC3")
    callsign := some (PyVal.str "CS3")
    lat := some (PyVal.float ⟨105, 1⟩) }

/-- The state after processing the witness line for `AC3` at time 0. -/
def stC3post : PipeState := ⟨[("AC3", recC3)], [("AC3", ⟨0, 0⟩)]⟩

/-- Witness for C3: a first reportable event for `AC3` dispatches and sets
its last-sent time. -/
theorem process_rate_limit_witness :
    parsedHex "MSG,3,1,1,AC3,,,,,,CS3,,,,10.5,,,,,,," = some "AC3" ∧
    dictGet stC3post.last_sent_time "AC3" = some ⟨0, 0⟩ :=
  ⟨by decide,
   (process_rate_limit "MSG,3,1,1,AC3,,,,,,CS3,,,,10.5,,,,,,," 300 ⟨0, 0⟩
     ⟨[], []⟩ stC3post true "AC3" (by decide) (by decide) (by decide)).2.1 rfl⟩

theorem cleanClose_replicate (chunks : List String) (n : Nat) :
    (connect_to_dump1090 0 (List.replicate n
      (ConnEvent.session chunks SessionEnd.cleanClose))).conn_attempts = 0 ∧
    (connect_to_dump1090 0 (List.replicate n
      (ConnEvent.session chunks SessionEnd.cleanClose))).sleeps = 0 ∧
    (connect_to_dump1090 0 (List.replicate n
      (ConnEvent.session chunks SessionEnd.cleanClose))).exhausted = false ∧
    (connect_to_dump1090 0 (List.replicate n
      (ConnEvent.session chunks SessionEnd.cleanClose))).leftover = [] := by
  induction n with
  | zero =>
    simp only [List.replicate, connect_to_dump1090]
    rw [if_pos (by decide)]
    exact ⟨rfl, rfl, rfl, rfl⟩
  | succ n ih =>
    simp only [List.replicate_succ, connect_to_dump1090]
    rw [if_pos (show 0 < CONNECT_ATTEMPT_LIMIT by decide)]
    exact ih

/-- Claim C5: a clean peer close (zero-length read) ends the session and
falls straight through to a fresh reconnect attempt: the attempt counter is
not incremented and no retry delay is slept, unlike a failed connect; hence
a server that accepts and immediately closes is reconnected to indefinitely
— any number of clean-close sessions is consumed with the counter still 0,
never exhausting the retry limit. -/
theorem clean_close_reconnects_without_penalty (a : Nat) (chunks : List String)
    (rest : List ConnEvent) (n : Nat) (ha : a < CONNECT_ATTEMPT_LIMIT) :
    (connect_to_dump1090 a (ConnEvent.session chunks SessionEnd.cleanClose :: rest) =
      { lines := sessionLines chunks ++ (connect_to_dump1090 a rest).lines,
        sleeps := (connect_to_dump1090 a rest).sleeps,
        conn_attempts := (connect_to_dump1090 a rest).conn_attempts,
        exhausted := (connect_to_dump1090 a rest).exhausted,
        leftover := (connect_to_dump1090 a rest).leftover }) ∧
    (connect_to_dump1090 0 (List.replicate n
      (ConnEvent.session chunks SessionEnd.cleanClose))).conn_attempts = 0 ∧
    (connect_to_dump1090 0 (List.replicate n
      (ConnEvent.session chunks SessionEnd.cleanClose))).sleeps = 0 ∧
    (connect_to_dump1090 0 (List.replicate n
      (ConnEvent.session chunks SessionEnd.cleanClose))).exhausted = false := by
  refine ⟨?_, (cleanClose_replicate chunks n).1, (cleanClose_replicate chunks n).2.1,
    (cleanClose_replicate chunks n).2.2.1⟩
  simp only [connect_to_dump1090]
  rw [if_pos ha]

/-- Witness for C5 at a concrete scenario. -/
theorem clean_close_reconnects_without_penalty_witness :
    (3 < CONNECT_ATTEMPT_LIMIT) ∧
    ((connect_to_dump1090 3 (ConnEvent.session ["a\nb"] SessionEnd.cleanClose ::
        [ConnEvent.connectFail]) =
      { lines := sessionLines ["a\nb"] ++
          (connect_to_dump1090 3 [ConnEvent.connectFail]).lines,
        sleeps := (connect_to_dump1090 3 [ConnEvent.connectFail]).sleeps,
        conn_attempts := (connect_to_dump1090 3 [ConnEvent.connectFail]).conn_attempts,
        exhausted := (connect_to_dump1090 3 [ConnEvent.connectFail]).exhausted,
        leftover := (connect_to_dump1090 3 [ConnEvent.connectFail]).leftover }) ∧
     (connect_to_dump1090 0 (List.replicate 4
        (ConnEvent.session ["a\nb"] SessionEnd.cleanClose))).conn_attempts = 0 ∧
     (connect_to_dump1090 0 (List.replicate 4
        (ConnEvent.session ["a\nb"] SessionEnd.cleanClose))).sleeps = 0 ∧
     (connect_to_dump1090 0 (List.replicate 4
        (ConnEvent.session ["a\nb"] SessionEnd.cleanClose))).exhausted = false) :=
  ⟨by decide,
   clean_close_reconnects_without_penalty 3 ["a\nb"] [ConnEvent.connectFail] 4
     (by decide)⟩

theorem connFail_replicate (k : Nat) : ∀ (a n : Nat),
    a + k = CONNECT_ATTEMPT_LIMIT → k ≤ n →
    connect_to_dump1090 a (List.replicate n ConnEvent.connectFail) =
      { lines := [], sleeps := k - 1, conn_attempts := CONNECT_ATTEMPT_LIMIT,
        exhausted := true,
        leftover := List.replicate (n - k) ConnEvent.connectFail } := by
  induction k with
  | zero =>
    intro a n ha _
    rw [Nat.add_zero] at ha
    subst ha
    cases n with
    | zero =>
      simp only [List.replicate, connect_to_dump1090]
      rw [if_neg (lt_irrefl _)]
    | succ n' =>
      simp only [List.replicate_succ, connect_to_dump1090]
      rw [if_neg (lt_irrefl _)]
      rw [Nat.sub_zero, List.replicate_succ]
  | succ k ih =>
    intro a n ha hk
    have halt : a < CONNECT_ATTEMPT_LIMIT := by omega
    cases n with
    | zero => omega
    | succ n' =>
      rw [List.replicate_succ]
      simp only [connect_to_dump1090]
      rw [if_pos halt, ih (a + 1) n' (by omega) (by omega)]
      show LoopResult.mk []
        ((if a + 1 < CONNECT_ATTEMPT_LIMIT then 1 else 0) + (k - 1))
        CONNECT_ATTEMPT_LIMIT true
        (List.replicate (n' - k) ConnEvent.connectFail) = _
      simp only [LoopResult.mk.injEq, true_and, and_true]
      refine ⟨?_, ?_⟩
      · split_ifs with hb <;> omega
      · rw [show n' - k = n' + 1 - (k + 1) from by omega]

/-- Claim C6: when every connect attempt fails, the stream reader terminates
after exactly `CONNECT_ATTEMPT_LIMIT = 10` consecutive failed attempts —
consuming exactly 10 failure events, yielding no lines, ending exhausted —
and sleeps the fixed `CONNECT_ATTEMPT_DELAY = 5` second delay between
consecutive failed attempts (9 sleeps for 10 attempts, none after the
last). -/
theorem connect_failures_exhaust_after_limit (n : Nat)
    (hn : CONNECT_ATTEMPT_LIMIT ≤ n) :
    connect_to_dump1090 0 (List.replicate n ConnEvent.connectFail) =
      { lines := [], sleeps := CONNECT_ATTEMPT_LIMIT - 1,
        conn_attempts := CONNECT_ATTEMPT_LIMIT, exhausted := true,
        leftover := List.replicate (n - CONNECT_ATTEMPT_LIMIT)
          ConnEvent.connectFail } ∧
    CONNECT_ATTEMPT_LIMIT = 10 ∧ CONNECT_ATTEMPT_DELAY = 5 :=
  ⟨connFail_replicate CONNECT_ATTEMPT_LIMIT 0 n (Nat.zero_add _) hn, rfl, rfl⟩

/-- Witness for C6 with 12 available failure events: exactly 10 are
consumed. -/
theorem connect_failures_exhaust_after_limit_witness :
    (CONNECT_ATTEMPT_LIMIT ≤ 12) ∧
    (connect_to_dump1090 0 (List.replicate 12 ConnEvent.connectFail) =
      { lines := [], sleeps := CONNECT_ATTEMPT_LIMIT - 1,
        conn_attempts := CONNECT_ATTEMPT_LIMIT, exhausted := true,
        leftover := List.replicate (12 - CONNECT_ATTEMPT_LIMIT)
          ConnEvent.connectFail } ∧
     CONNECT_ATTEMPT_LIMIT = 10 ∧ CONNECT_ATTEMPT_DELAY = 5) :=
  ⟨by decide, connect_failures_exhaust_after_limit 12 (by decide)⟩

theorem connLoop_monotone (events : List ConnEvent) : ∀ a : Nat,
    a ≤ (connect_to_dump1090 a events).conn_attempts := by
  induction events with
  | nil =>
    intro a
    by_cases h : a < CONNECT_ATTEMPT_LIMIT <;>
      simp [connect_to_dump1090, h]
  | cons e rest ih =>
    intro a
    by_cases h : a < CONNECT_ATTEMPT_LIMIT
    · match e with
      | ConnEvent.connectFail =>
        simp only [connect_to_dump1090]
        rw [if_pos h]
        exact le_trans (Nat.le_succ a) (ih (a + 1))
      | ConnEvent.session chunks SessionEnd.cleanClose =>
        simp only [connect_to_dump1090]
        rw [if_pos h]
        exact ih a
      | ConnEvent.session chunks SessionEnd.sockError =>
        simp only [connect_to_dump1090]
        rw [if_pos h]
        exact le_trans (Nat.le_succ a) (ih (a + 1))
    · match e with
      | ConnEvent.connectFail =>
        simp only [connect_to_dump1090]
        rw [if_neg h]
      | ConnEvent.session chunks SessionEnd.cleanClose =>
        simp only [connect_to_dump1090]
        rw [if_neg h]
      | ConnEvent.session chunks SessionEnd.sockError =>
        simp only [connect_to_dump1090]
        rw [if_neg h]

theorem connLoop_exhaust (events : List ConnEvent) : ∀ a : Nat,
    a ≤ CONNECT_ATTEMPT_LIMIT → CONNECT_ATTEMPT_LIMIT ≤ a + errCount events →
    (connect_to_dump1090 a events).exhausted = true ∧
    (connect_to_dump1090 a events).conn_attempts = CONNECT_ATTEMPT_LIMIT := by
  induction events with
  | nil =>
    intro a ha herr
    simp only [errCount] at herr
    have haeq : a = CONNECT_ATTEMPT_LIMIT := by omega
    subst haeq
    simp only [connect_to_dump1090]
    rw [if_neg (lt_irrefl _)]
    exact ⟨rfl, rfl⟩
  | cons e rest ih =>
    intro a ha herr
    by_cases h : a < CONNECT_ATTEMPT_LIMIT
    · match e with
      | ConnEvent.connectFail =>
        simp only [errCount] at herr
        simp only [connect_to_dump1090]
        rw [if_pos h]
        exact ih (a + 1) (by omega) (by omega)
      | ConnEvent.session chunks SessionEnd.cleanClose =>
        simp only [errCount] at herr
        simp only [connect_to_dump1090]
        rw [if_pos h]
        exact ih a ha (by omega)
      | ConnEvent.session chunks SessionEnd.sockError =>
        simp only [errCount] at herr
        simp only [connect_to_dump1090]
        rw [if_pos h]
        exact ih (a + 1) (by omega) (by omega)
    · have haeq : a = CONNECT_ATTEMPT_LIMIT := by omega
      subst haeq
      match e with
      | ConnEvent.connectFail =>
        simp only [connect_to_dump1090]
        rw [if_neg (lt_irrefl _)]
        exact ⟨rfl, rfl⟩
      | ConnEvent.session chunks SessionEnd.cleanClose =>
        simp only [connect_to_dump1090]
        rw [if_neg (lt_irrefl _)]
        exact ⟨rfl, rfl⟩
      | ConnEvent.session chunks SessionEnd.sockError =>
        simp only [connect_to_dump1090]
        rw [if_neg (lt_irrefl _)]
        exact ⟨rfl, rfl⟩

/-- Claim C10: the attempt counter is cumulative over the whole run and is
never reset by a successful connect — a `socket.error` during reads after a
successful session increments it exactly like a failed connect (same
counter, sleeps, exhaustion and leftover; only the lines of the session are
additionally yielded), the counter never decreases below its starting
value, and once 10 handler-visible socket errors have accumulated across
the run — regardless of interleaved successful sessions — the reader is
exhausted with the counter at the limit. -/
theorem conn_attempts_cumulative (a : Nat) (chunks : List String)
    (rest events : List ConnEvent) :
    (a < CONNECT_ATTEMPT_LIMIT →
      (connect_to_dump1090 a (ConnEvent.session chunks SessionEnd.sockError :: rest)).conn_attempts =
        (connect_to_dump1090 a (ConnEvent.connectFail :: rest)).conn_attempts ∧
      (connect_to_dump1090 a (ConnEvent.session chunks SessionEnd.sockError :: rest)).sleeps =
        (connect_to_dump1090 a (ConnEvent.connectFail :: rest)).sleeps ∧
      (connect_to_dump1090 a (ConnEvent.session chunks SessionEnd.sockError :: rest)).exhausted =
        (connect_to_dump1090 a (ConnEvent.connectFail :: rest)).exhausted ∧
      (connect_to_dump1090 a (ConnEvent.session chunks SessionEnd.sockError :: rest)).leftover =
        (connect_to_dump1090 a (ConnEvent.connectFail :: rest)).leftover ∧
      (connect_to_dump1090 a (ConnEvent.session chunks SessionEnd.sockError :: rest)).lines =
        sessionLines chunks ++ (connect_to_dump1090 a (ConnEvent.connectFail :: rest)).lines) ∧
    (a ≤ CONNECT_ATTEMPT_LIMIT → CONNECT_ATTEMPT_LIMIT ≤ a + errCount events →
      (connect_to_dump1090 a events).exhausted = true ∧
      (connect_to_dump1090 a events).conn_attempts = CONNECT_ATTEMPT_LIMIT) ∧
    (a ≤ (connect_to_dump1090 a events).conn_attempts) := by
  refine ⟨fun ha => ?_, fun ha herr => connLoop_exhaust events a ha herr,
    connLoop_monotone events a⟩
  refine ⟨?_, ?_, ?_, ?_, ?_⟩ <;>
    · simp only [connect_to_dump1090]
      rw [if_pos ha, if_pos ha]

/-- Witness for C10: ten socket errors spread across successful sessions
exhaust the reader. -/
theorem conn_attempts_cumulative_witness :
    ((3 : Nat) < CONNECT_ATTEMPT_LIMIT ∧
     (3 : Nat) ≤ CONNECT_ATTEMPT_LIMIT ∧
     CONNECT_ATTEMPT_LIMIT ≤ 3 + errCount (List.replicate 8
       (ConnEvent.session ["x\n"] SessionEnd.sockError))) ∧
    (connect_to_dump1090 3 (List.replicate 8
       (ConnEvent.session ["x\n"] SessionEnd.sockError))).exhausted = true ∧
    (connect_to_dump1090 3 (List.replicate 8
       (ConnEvent.session ["x\n"] SessionEnd.sockError))).conn_attempts =
      CONNECT_ATTEMPT_LIMIT :=
  ⟨⟨by decide, by decide, by decide⟩,
   (conn_attempts_cumulative 3 ["x\n"] []
     (List.replicate 8 (ConnEvent.session ["x\n"] SessionEnd.sockError))).2.1
     (by decide) (by decide)⟩

end Planetastic
